import Mathlib

/-!
Verification of the ODCV analytics repository: the Timing Compliance and
Violation Detection Engine (Correlator, Violation Classifier, Data Quality
Detector, Aggregator), the Express static-file server routes, and the
navigation component. The engine itself is documented but its implementation
is not shipped in this snapshot, so its definitions are modelled from the
specification text; the server and navigation definitions are translated
from server.js and the navigation component source.
-/

namespace Odcv

/-- Direction of a sensor occupancy transition. -/
inductive SDir
| toUnoccupied
| toOccupied
deriving DecidableEq, Repr

/-- Direction of a zone mode transition (standby or active/occupied). -/
inductive ZDir
| toStandby
| toActive
deriving DecidableEq, Repr

/-- Modelled from the spec: a sensor to unoccupied transition expects the zone
to go to standby, and a sensor to occupied transition expects the zone to go
to active. -/
def matchesDir : SDir → ZDir
| .toUnoccupied => .toStandby
| .toOccupied => .toActive

/-- A sensor occupancy transition: its timestamp (minutes) and direction. -/
structure SensorT where
  time : Nat
  dir : SDir
deriving DecidableEq, Repr

/-- A zone mode transition: its timestamp (minutes) and direction; list order
is the raw load order. -/
structure ZoneT where
  time : Nat
  dir : ZDir
deriving DecidableEq, Repr

/-- Modelled from the spec: PairedTransition record produced by the
Correlator, with elapsed set to the zone time minus the sensor time. -/
structure PairedTransition where
  zone_id : String
  sensor_transition_time : Nat
  zone_transition_time : Nat
  direction : SDir
  elapsed : Nat
deriving DecidableEq, Repr

/-- Modelled from the spec: whether a zone transition timestamp falls before
the deadline given by the next sensor transition of the same direction (no
deadline when there is no such sensor transition). -/
def withinDeadline (dl : Option Nat) (zt : Nat) : Bool :=
  match dl with
  | none => true
  | some b => decide (zt < b)

/-- Modelled from the spec: a zone transition qualifies as the answer to a
sensor transition of direction d at time t when its direction matches and it
occurs at or after t. -/
def qualifies (d : SDir) (t : Nat) (z : ZoneT) : Bool :=
  decide (z.dir = matchesDir d) && decide (t ≤ z.time)

/-- Modelled from the spec: the single forward cursor over the zone
transition list; it skips transitions that are within the deadline but do not
qualify, returns the first qualifying one together with the remaining suffix,
and stops (returning none) at the first transition at or past the deadline. -/
def findZone (d : SDir) (t : Nat) (dl : Option Nat) : List ZoneT → Option (ZoneT × List ZoneT)
| [] => none
| z :: zs =>
  if withinDeadline dl z.time then
    if qualifies d t z then some (z, zs)
    else findZone d t dl zs
  else none

/-- Modelled from the spec: the timestamp of the next sensor transition of
the same direction, if any. -/
def nextSameDir (d : SDir) : List SensorT → Option Nat
| [] => none
| s :: ss => if s.dir = d then some s.time else nextSameDir d ss

/-- Outcome of correlating one sensor transition: either paired with a zone
transition or reported unanswered (a distinct outcome, not a violation). -/
inductive Outcome
| answered (pt : PairedTransition)
| unanswered (s : SensorT)
deriving DecidableEq, Repr

/-- Modelled from the spec: the Correlator. For each sensor transition in
order it takes the first qualifying zone transition before the next sensor
transition of the same direction, consuming the prefix up to and including
it; when none exists the sensor transition is reported unanswered and the
cursor does not move. -/
def correlate (zid : String) : List SensorT → List ZoneT → List Outcome
| [], _ => []
| s :: rest, zones =>
  match findZone s.dir s.time (nextSameDir s.dir rest) zones with
  | some (z, zs) =>
    .answered ⟨zid, s.time, z.time, s.dir, z.time - s.time⟩ :: correlate zid rest zs
  | none => .unanswered s :: correlate zid rest zones

/-- Sensor transition that an outcome accounts for. -/
def outcomeSensor : Outcome → SensorT
| .answered pt => ⟨pt.sensor_transition_time, pt.direction⟩
| .unanswered s => s

/-- Modelled from the spec: a named timing rule profile; tolerance is
optional and defaults to 0 when the profile does not specify one. -/
structure TimingRuleProfile where
  unoccupied_to_standby_minutes : Nat
  occupied_to_active_minutes : Nat
  tolerance : Option Nat
deriving DecidableEq, Repr

/-- Modelled from the spec: the default profile expects 15 minutes for
unoccupied to standby and 5 minutes for occupied to active, with no
tolerance specified. -/
def defaultProfile : TimingRuleProfile :=
  ⟨15, 5, none⟩

/-- Expected minutes of a profile for a given transition direction. -/
def expectedMinutes (p : TimingRuleProfile) : SDir → Nat
| .toUnoccupied => p.unoccupied_to_standby_minutes
| .toOccupied => p.occupied_to_active_minutes

/-- Violation kinds. -/
inductive VKind
| prematureStandby
| prematureActive
| delayedStandby
| delayedActive
deriving DecidableEq, Repr

/-- Premature violation kind for a direction. -/
def prematureKind : SDir → VKind
| .toUnoccupied => .prematureStandby
| .toOccupied => .prematureActive

/-- Delayed violation kind for a direction. -/
def delayedKind : SDir → VKind
| .toUnoccupied => .delayedStandby
| .toOccupied => .delayedActive

/-- Verdict of the classifier on one paired transition: correct, or a typed
violation carrying the elapsed and expected minutes. -/
inductive Verdict
| correct
| violation (kind : VKind) (elapsed : Nat) (expected : Nat)
deriving DecidableEq, Repr

/-- Modelled from the spec: the Violation Classifier. Elapsed below the
expected minutes is premature; elapsed within the closed interval from the
expected minutes to the expected minutes plus tolerance is correct; elapsed
above that is delayed. Tolerance defaults to 0 when absent. -/
def classify (p : TimingRuleProfile) (pt : PairedTransition) : Verdict :=
  let exp := expectedMinutes p pt.direction
  let tol := p.tolerance.getD 0
  if pt.elapsed < exp then .violation (prematureKind pt.direction) pt.elapsed exp
  else if pt.elapsed ≤ exp + tol then .correct
  else .violation (delayedKind pt.direction) pt.elapsed exp

/-- Modelled from the spec: the violations list of a run keeps, for each
answered outcome, the classifier verdict when it is not correct; unanswered
outcomes contribute nothing to it. -/
def violations (p : TimingRuleProfile) : List Outcome → List Verdict
| [] => []
| .answered pt :: rest =>
  match classify p pt with
  | .correct => violations p rest
  | v => v :: violations p rest
| .unanswered _ :: rest => violations p rest

/-- Modelled from the spec: a full engine run returns the paired outcome list
of the Correlator and the violations list of the Classifier. -/
def runEngine (p : TimingRuleProfile) (zid : String) (sensors : List SensorT)
    (zones : List ZoneT) : List Outcome × List Verdict :=
  (correlate zid sensors zones, violations p (correlate zid sensors zones))

/-- Classified transition as consumed by the Aggregator: zone, the zone
transition timestamp, and the verdict. -/
structure Classified where
  zone_id : String
  zone_time : Nat
  verdict : Verdict
deriving DecidableEq, Repr

/-- Modelled from the spec: a classified transition is counted for a zone in
a half open window from ws to we when its zone id matches and its zone
transition time satisfies ws ≤ t and t < we. -/
def countedIn (zid : String) (ws we : Nat) (c : Classified) : Bool :=
  decide (c.zone_id = zid) && decide (ws ≤ c.zone_time) && decide (c.zone_time < we)

/-- Whether a verdict is the correct verdict. -/
def isCorrectVerdict : Verdict → Bool
| .correct => true
| .violation _ _ _ => false

/-- Per zone statistics for one window. -/
structure ZoneStatistics where
  correct_count : Nat
  total_transitions : Nat
  performance_score : ℚ
deriving DecidableEq, Repr

/-- Modelled from the spec: the Aggregator counts the classified transitions
of the zone inside the half open window, and sets the performance score to
correct over total, with score 0 when the total is 0 so that no division by
zero is performed. -/
def aggregate (zid : String) (ws we : Nat) (cls : List Classified) : ZoneStatistics :=
  let inW := cls.filter (countedIn zid ws we)
  let total := inW.length
  let correct := (inW.filter (fun c => isCorrectVerdict c.verdict)).length
  ⟨correct, total, if total = 0 then 0 else (correct : ℚ) / (total : ℚ)⟩

/-- Data gap record of the Data Quality Detector. -/
structure DataGap where
  start : Nat
  stop : Nat
  duration : Nat
deriving DecidableEq, Repr

/-- Modelled from the spec: scan consecutive timestamps starting from the
previous timestamp last, flagging every gap whose duration exceeds the
threshold, and close with a trailing gap to the window end we when the
stream stops reporting before it (an open ended outage is still reported). -/
def scanGaps (thresh we : Nat) : Nat → List Nat → List DataGap
| last, [] => if last < we then [⟨last, we, we - last⟩] else []
| last, t :: ts =>
  (if thresh < t - last then [⟨last, t, t - last⟩] else []) ++ scanGaps thresh we t ts

/-- Modelled from the spec: the Data Quality Detector over a window from ws
to we. A stream with zero events is wholly one gap spanning the window;
otherwise gaps are scanned from the window start through consecutive events
and out to the window end. -/
def detectGaps (ws we thresh : Nat) (events : List Nat) : List DataGap :=
  match events with
  | [] => [⟨ws, we, we - ws⟩]
  | _ => scanGaps thresh we ws events

/-- Total duration of a list of gaps. -/
def totalGapDuration (gaps : List DataGap) : Nat :=
  (gaps.map (fun g => g.duration)).sum

/-- Modelled from the spec: completeness percent of a stream equals one minus
the total gap duration over the window duration, clamped to the interval
from 0 to 1. -/
def completenessPercent (ws we : Nat) (gaps : List DataGap) : ℚ :=
  max 0 (min 1 (1 - (totalGapDuration gaps : ℚ) / ((we : ℚ) - (ws : ℚ))))

/-- Engine error taxonomy from the specification. -/
inductive EngineError
| unknownDeviceKind (device : String)
| mappingCardinalityMismatch
| invalidProfile (name : String)
deriving DecidableEq, Repr

/-- Modelled from the spec: look a profile up by name in the named profile
table. -/
def lookupProfile (profiles : List (String × TimingRuleProfile)) (name : String) :
    Option TimingRuleProfile :=
  (profiles.find? (fun q => q.1 = name)).map (fun q => q.2)

/-- Outcome of classification: a verdict for an answered pair, or the
distinct unanswered report for a sensor transition the zone never answered. -/
inductive ClassifiedOutcome
| verdict (pt : PairedTransition) (v : Verdict)
| unansweredReport (s : SensorT)
deriving DecidableEq, Repr

/-- Modelled from the spec: classify every outcome, keeping unanswered
sensor transitions as a distinct outcome rather than coercing them into any
compliance verdict. -/
def classifyAll (p : TimingRuleProfile) (outs : List Outcome) : List ClassifiedOutcome :=
  outs.map (fun o =>
    match o with
    | .answered pt => .verdict pt (classify p pt)
    | .unanswered s => .unansweredReport s)

/-- Modelled from the spec: a classification run first resolves the requested
profile name; a name that does not exist fails the run with InvalidProfile
and no other profile is substituted. -/
def runClassification (profiles : List (String × TimingRuleProfile)) (name : String)
    (outs : List Outcome) : Except EngineError (List ClassifiedOutcome) :=
  match lookupProfile profiles name with
  | none => .error (.invalidProfile name)
  | some p => .ok (classifyAll p outs)

end Odcv

namespace OdcvServer

/-- Request body of the google drive download endpoint; absent JSON fields
are none. -/
structure DownloadRequest where
  fileId : Option String
  mimeType : Option String
  accessToken : Option String

/-- Result of the outbound fetch to the Google Drive API: a body text with
response.ok true, an http error status with response.ok false, or a rejected
fetch with an error message. -/
inductive FetchOutcome
| ok (text : String)
| httpError (status : Nat) (statusText : String)
| rejected (msg : String)

/-- Response sent by the download handler, together with whether an outbound
fetch was performed on the way. -/
structure DownloadResponse where
  status : Nat
  success : Bool
  error : Option String
  content : Option String
  fetched : Bool
deriving DecidableEq, Repr

/-- Truthiness test of the javascript guard on an optional string field: an
absent field and the empty string are both falsy. -/
def jsFalsy : Option String → Bool
| none => true
| some s => decide (s = "")

/-- Download URL selection of server.js lines 66 to 75: google docs export
as text, every other present mime type downloads with alt media; an absent
mime type makes mimeType.startsWith throw, which the catch turns into the
500 path, so no URL is produced. -/
def downloadUrl (fileId : String) : Option String → Option String
| some m =>
  if m = "application/vnd.google-apps.document" then
    some ("https://www.googleapis.com/drive/v3/files/" ++ fileId ++ "/export?mimeType=text/plain")
  else
    some ("https://www.googleapis.com/drive/v3/files/" ++ fileId ++ "?alt=media")
| none => none

/-- Handler of POST /api/google-drive/download from server.js lines 52 to
102: missing fileId or accessToken answers 400 with the fixed error body
before any fetch; a throw anywhere in the try block answers 500 with the
error message; a successful fetch answers the body text with success true. -/
def handleDownload (req : DownloadRequest) (fetch : String → FetchOutcome) : DownloadResponse :=
  if jsFalsy req.fileId || jsFalsy req.accessToken then
    ⟨400, false, some "Missing required fileId or accessToken", none, false⟩
  else
    match downloadUrl ((req.fileId).getD "") req.mimeType with
    | none =>
      ⟨500, false, some "Cannot read properties of undefined (reading startsWith)", none, false⟩
    | some url =>
      match fetch url with
      | .ok text => ⟨200, true, none, some text, true⟩
      | .httpError st stx =>
        ⟨500, false, some ("Google Drive API error: " ++ toString st ++ " " ++ stx), none, true⟩
      | .rejected msg => ⟨500, false, some msg, none, true⟩

/-- Response of the catch all route: the 404 json body, or sending a file by
name. -/
inductive CatchAllResponse
| notFoundJson
| sendFile (name : List Char)
deriving DecidableEq, Repr

/-- Extension checked by the catch all route. -/
def htmlExt : List Char := ".html".toList

/-- Catch all GET route of server.js lines 125 to 143 with the request path
as a character list: the requested file is the path without its leading
slash; an html request sends that file, falling back to the timeline viewer
when it does not exist; every other request gets the 404 json body. -/
def catchAll (path : List Char) (fileExists : List Char → Bool) : CatchAllResponse :=
  let requestedFile := path.drop 1
  if htmlExt.isSuffixOf requestedFile then
    if fileExists requestedFile then .sendFile requestedFile
    else .sendFile "timeline_viewer.html".toList
  else .notFoundJson

end OdcvServer

namespace OdcvNav

/-- Environment selected by the navigation component. -/
inductive Env
| localEnv
| production
deriving DecidableEq, Repr

/-- Javascript string startsWith, over the character data. -/
def strStartsWith (s pre : String) : Bool :=
  pre.toList.isPrefixOf s.toList

/-- Environment detection of the navigation component: localhost, 127.0.0.1,
the empty hostname, and a hostname starting with file:// are local; anything
else is production. -/
def detectEnvironment (hostname : String) : Env :=
  if hostname = "localhost" ∨ hostname = "127.0.0.1" ∨ hostname = "" ∨
      strStartsWith hostname "file://" then .localEnv
  else .production

/-- Key of an environment in the url configuration json. -/
def envName : Env → String
| .localEnv => "local"
| .production => "production"

/-- Lookup of a string key in a key value list, as javascript object
indexing returning undefined when absent. -/
def lookupKey {α : Type} (l : List (String × α)) (k : String) : Option α :=
  (l.find? (fun q => q.1 = k)).map (fun q => q.2)

/-- Url configuration object: environments keyed by name, each holding base
url entries keyed by strings such as soo_base. -/
structure UrlConfig where
  environments : List (String × List (String × String))

/-- Fallback configuration installed when loading nav-urls.json fails: both
environments present with empty base urls. -/
def fallbackConfig : UrlConfig :=
  ⟨[("local", [("soo_base", ""), ("validation_base", "")]),
    ("production", [("soo_base", ""), ("validation_base", "")])]⟩

/-- Load of the url configuration: the fetched and parsed configuration when
the fetch succeeds, the fallback configuration when it fails. -/
def loadUrlConfig (fetched : Option UrlConfig) : UrlConfig :=
  match fetched with
  | some cfg => cfg
  | none => fallbackConfig

/-- Url building of the navigation component: without a loaded configuration
the filename is returned; with one, the base url of the detected environment
for the project is prepended, the empty string standing in when the
environment or the base url entry is absent or falsy. -/
def buildUrl (cfg : Option UrlConfig) (hostname : String) (project filename : String) : String :=
  match cfg with
  | none => filename
  | some c =>
    let env := detectEnvironment hostname
    match lookupKey c.environments (envName env) with
    | none => filename
    | some envCfg =>
      let baseUrl := (lookupKey envCfg (project ++ "_base")).getD ""
      baseUrl ++ filename

/-- Navigation item of the template: project none stands for the javascript
null project of standalone items; navSection renders the source field named
section, which Lean reserves. -/
structure NavItem where
  id : String
  label : String
  project : Option String
  filename : String
  navSection : String
  working : Bool
deriving DecidableEq, Repr

/-- Item list of NAV_CONFIG_TEMPLATE from the navigation component. -/
def navTemplateItems : List NavItem :=
  [⟨"generator", "Create Draft", some "soo", "index.html", "soo", true⟩,
   ⟨"ahu-calculator", "Calculate (AHU)", some "soo", "SOO-calculator.html", "soo", true⟩,
   ⟨"zone-calculator", "Calculate (Zone)", some "soo", "SOO-zone-calculator.html", "soo", false⟩,
   ⟨"bacnet-points", "BACNET POINTS", none, "#", "standalone", false⟩,
   ⟨"stanford", "Stanford", some "validation", "timeline_viewer.html", "validation", true⟩,
   ⟨"energy-savings", "ENERGY SAVINGS", none, "#", "standalone", false⟩,
   ⟨"cost-savings", "COST SAVINGS", none, "#", "standalone", false⟩]

/-- Navigation item with its resolved href. -/
structure ResolvedItem where
  item : NavItem
  href : String
deriving DecidableEq, Repr

/-- Build of the navigation config: the url configuration is loaded (with
fallback on failure) and every template item receives an href, built from
its project and filename when it has a project and its bare filename
otherwise. -/
def buildNavigationConfig (fetched : Option UrlConfig) (hostname : String) : List ResolvedItem :=
  let cfg := loadUrlConfig fetched
  navTemplateItems.map (fun item =>
    ⟨item,
      match item.project with
      | some p => buildUrl (some cfg) hostname p item.filename
      | none => item.filename⟩)

end OdcvNav

namespace Odcv

/-- C1: for every PairedTransition classified under a TimingRuleProfile, the
classifier yields the premature kind of its direction exactly when elapsed is
below the expected minutes, correct exactly when elapsed lies in the closed
interval from the expected minutes to the expected minutes plus tolerance,
and the delayed kind exactly when elapsed exceeds the expected minutes plus
tolerance, the tolerance being 0 when the profile specifies none; in
particular a sensor to unoccupied transition answered by standby after 8
minutes under the default profile is classified PrematureStandby with
elapsed 8 and expected 15, and an occupied transition answered by active
after exactly 5 minutes is classified Correct. -/
theorem classifier_policy (p : TimingRuleProfile) (pt : PairedTransition) :
    (classify p pt =
        .violation (prematureKind pt.direction) pt.elapsed (expectedMinutes p pt.direction)
      ↔ pt.elapsed < expectedMinutes p pt.direction)
  ∧ (classify p pt = .correct
      ↔ (expectedMinutes p pt.direction ≤ pt.elapsed ∧
          pt.elapsed ≤ expectedMinutes p pt.direction + p.tolerance.getD 0))
  ∧ (classify p pt =
        .violation (delayedKind pt.direction) pt.elapsed (expectedMinutes p pt.direction)
      ↔ expectedMinutes p pt.direction + p.tolerance.getD 0 < pt.elapsed)
  ∧ classify defaultProfile ⟨"Z", 0, 8, .toUnoccupied, 8⟩ =
      .violation .prematureStandby 8 15
  ∧ classify defaultProfile ⟨"Z", 0, 5, .toOccupied, 5⟩ = .correct := by
  have hpd : prematureKind pt.direction ≠ delayedKind pt.direction := by
    cases pt.direction <;> simp [prematureKind, delayedKind]
  refine ⟨?_, ?_, ?_, rfl, rfl⟩
  · by_cases h1 : pt.elapsed < expectedMinutes p pt.direction
    · have hc : classify p pt =
          .violation (prematureKind pt.direction) pt.elapsed (expectedMinutes p pt.direction) := by
        simp [classify, h1]
      simp [hc, h1]
    · by_cases h2 : pt.elapsed ≤ expectedMinutes p pt.direction + p.tolerance.getD 0
      · have hc : classify p pt = .correct := by simp [classify, h1, h2]
        simp [hc, h1]
      · have hc : classify p pt =
            .violation (delayedKind pt.direction) pt.elapsed (expectedMinutes p pt.direction) := by
          simp [classify, h1, h2]
        simp [hc, h1, hpd.symm]
  · by_cases h1 : pt.elapsed < expectedMinutes p pt.direction
    · have hc : classify p pt =
          .violation (prematureKind pt.direction) pt.elapsed (expectedMinutes p pt.direction) := by
        simp [classify, h1]
      simp [hc]
      omega
    · by_cases h2 : pt.elapsed ≤ expectedMinutes p pt.direction + p.tolerance.getD 0
      · have hc : classify p pt = .correct := by simp [classify, h1, h2]
        simp [hc]
        omega
      · have hc : classify p pt =
            .violation (delayedKind pt.direction) pt.elapsed (expectedMinutes p pt.direction) := by
          simp [classify, h1, h2]
        simp [hc]
        omega
  · by_cases h1 : pt.elapsed < expectedMinutes p pt.direction
    · have hc : classify p pt =
          .violation (prematureKind pt.direction) pt.elapsed (expectedMinutes p pt.direction) := by
        simp [classify, h1]
      simp [hc, hpd]
      omega
    · by_cases h2 : pt.elapsed ≤ expectedMinutes p pt.direction + p.tolerance.getD 0
      · have hc : classify p pt = .correct := by simp [classify, h1, h2]
        simp [hc]
        omega
      · have hc : classify p pt =
            .violation (delayedKind pt.direction) pt.elapsed (expectedMinutes p pt.direction) := by
          simp [classify, h1, h2]
        simp [hc]
        omega

/-- C3: the Aggregator sets performance score to correct over total, returns
exactly 0 when the total is 0 so no division by zero occurs, and counts a
classified transition in the half open window from ws to we exactly when its
zone matches and its zone transition time t satisfies ws ≤ t and t < we. -/
theorem aggregator_window_score (zid : String) (ws we : Nat) (cls : List Classified) :
    ((aggregate zid ws we cls).total_transitions = 0 →
      (aggregate zid ws we cls).performance_score = 0)
  ∧ ((aggregate zid ws we cls).total_transitions ≠ 0 →
      (aggregate zid ws we cls).performance_score =
        ((aggregate zid ws we cls).correct_count : ℚ) /
          ((aggregate zid ws we cls).total_transitions : ℚ))
  ∧ (∀ c : Classified, countedIn zid ws we c = true ↔
      (c.zone_id = zid ∧ ws ≤ c.zone_time ∧ c.zone_time < we))
  ∧ (aggregate zid ws we cls).total_transitions =
      (cls.filter (countedIn zid ws we)).length := by
  refine ⟨?_, ?_, ?_, rfl⟩
  · intro h
    simp only [aggregate] at h ⊢
    simp [h]
  · intro h
    simp only [aggregate] at h ⊢
    simp [h]
  · intro c
    simp [countedIn, and_assoc]

/-- Witness for C3 at concrete inputs: the empty window has score exactly 0,
and a window holding one correct transition has score correct over total. -/
theorem aggregator_window_score_witness :
    (aggregate "Z" 0 10 []).performance_score = 0
  ∧ (aggregate "Z" 0 10 [⟨"Z", 3, .correct⟩]).performance_score =
      ((aggregate "Z" 0 10 [⟨"Z", 3, .correct⟩]).correct_count : ℚ) /
        ((aggregate "Z" 0 10 [⟨"Z", 3, .correct⟩]).total_transitions : ℚ) :=
  ⟨(aggregator_window_score "Z" 0 10 []).1 (by decide),
   (aggregator_window_score "Z" 0 10 [⟨"Z", 3, .correct⟩]).2.1 (by decide)⟩

/-- C5: the pairing of the Correlator is independent of the profile, a run
under a second profile is exactly the classification of the first runs
pairs, and classifying the same PairedTransition twice under the same
profile yields identical results with the transition left unchanged. -/
theorem pairing_profile_invariant (p₁ p₂ : TimingRuleProfile) (zid : String)
    (sensors : List SensorT) (zones : List ZoneT) (pt : PairedTransition) :
    (runEngine p₁ zid sensors zones).1 = (runEngine p₂ zid sensors zones).1
  ∧ runEngine p₂ zid sensors zones =
      ((runEngine p₁ zid sensors zones).1, violations p₂ (runEngine p₁ zid sensors zones).1)
  ∧ classify p₁ pt = classify p₁ pt :=
  ⟨rfl, rfl, rfl⟩

end Odcv

namespace Odcv

/-- Success of the cursor search means the zone list splits as a prefix of
transitions that are within the deadline yet do not qualify, followed by the
returned qualifying transition and the returned suffix. -/
lemma findZone_sound (d : SDir) (t : Nat) (dl : Option Nat) :
    ∀ (zs : List ZoneT) (z : ZoneT) (zs' : List ZoneT),
      findZone d t dl zs = some (z, zs') →
      ∃ pre, zs = pre ++ z :: zs' ∧
        (∀ w ∈ pre, withinDeadline dl w.time = true ∧ qualifies d t w = false) ∧
        withinDeadline dl z.time = true ∧ qualifies d t z = true := by
  intro zs
  induction zs with
  | nil => intro z zs' h; simp [findZone] at h
  | cons w ws ih =>
    intro z zs' h
    by_cases hw : withinDeadline dl w.time = true
    · by_cases hq : qualifies d t w = true
      · simp [findZone, hw, hq] at h
        obtain ⟨rfl, rfl⟩ := h
        exact ⟨[], by simp, by simp, hw, hq⟩
      · rw [Bool.not_eq_true] at hq
        simp [findZone, hw, hq] at h
        obtain ⟨pre, hsplit, hall, hzw, hzq⟩ := ih z zs' h
        exact ⟨w :: pre, by simp [hsplit], by
          intro x hx
          rcases List.mem_cons.mp hx with hxw | hxp
          · subst hxw; exact ⟨hw, hq⟩
          · exact hall x hxp, hzw, hzq⟩
    · rw [Bool.not_eq_true] at hw
      simp [findZone, hw] at h

/-- Failure of the cursor search means every zone transition up to the
deadline fails to qualify. -/
lemma findZone_none_iff (d : SDir) (t : Nat) (dl : Option Nat) :
    ∀ zs : List ZoneT, findZone d t dl zs = none ↔
      ∀ z ∈ zs.takeWhile (fun z => withinDeadline dl z.time), qualifies d t z = false := by
  intro zs
  induction zs with
  | nil => simp [findZone]
  | cons w ws ih =>
    by_cases hw : withinDeadline dl w.time = true
    · by_cases hq : qualifies d t w = true
      · simp [findZone, hw, hq, List.takeWhile_cons]
      · rw [Bool.not_eq_true] at hq
        simp [findZone, hw, hq, List.takeWhile_cons, ih]
    · rw [Bool.not_eq_true] at hw
      simp [findZone, hw, List.takeWhile_cons]

/-- The cursor search takes the first qualifying zone transition: any prefix
of within-deadline non-qualifying transitions is skipped and the first
qualifying one is returned with the suffix after it. -/
lemma findZone_first (d : SDir) (t : Nat) (dl : Option Nat) :
    ∀ (pre : List ZoneT) (z : ZoneT) (rest : List ZoneT),
      (∀ w ∈ pre, withinDeadline dl w.time = true ∧ qualifies d t w = false) →
      withinDeadline dl z.time = true → qualifies d t z = true →
      findZone d t dl (pre ++ z :: rest) = some (z, rest) := by
  intro pre
  induction pre with
  | nil => intro z rest _ hw hq; simp [findZone, hw, hq]
  | cons w ws ih =>
    intro z rest hall hw hq
    obtain ⟨hw0, hq0⟩ := hall w (List.mem_cons_self w ws)
    have := ih z rest (fun x hx => hall x (List.mem_cons_of_mem w hx)) hw hq
    simp [findZone, hw0, hq0, this]

/-- The Correlator accounts for every sensor transition exactly once, in
order: mapping each outcome back to its sensor transition recovers the
sensor list. -/
lemma correlate_map_outcomeSensor (zid : String) :
    ∀ (sensors : List SensorT) (zones : List ZoneT),
      (correlate zid sensors zones).map outcomeSensor = sensors := by
  intro sensors
  induction sensors with
  | nil => intro zones; simp [correlate]
  | cons s rest ih =>
    intro zones
    cases hfz : findZone s.dir s.time (nextSameDir s.dir rest) zones with
    | some pz =>
      obtain ⟨z, zs⟩ := pz
      simp [correlate, hfz, outcomeSensor, ih]
    | none => simp [correlate, hfz, outcomeSensor, ih]

/-- Every answered outcome pairs a sensor transition with a zone transition
at or after it, and its elapsed field is their difference. -/
lemma correlate_answered_le (zid : String) :
    ∀ (sensors : List SensorT) (zones : List ZoneT) (pt : PairedTransition),
      Outcome.answered pt ∈ correlate zid sensors zones →
      pt.sensor_transition_time ≤ pt.zone_transition_time ∧
        pt.elapsed = pt.zone_transition_time - pt.sensor_transition_time := by
  intro sensors
  induction sensors with
  | nil => intro zones pt h; simp [correlate] at h
  | cons s rest ih =>
    intro zones pt h
    cases hfz : findZone s.dir s.time (nextSameDir s.dir rest) zones with
    | some pz =>
      obtain ⟨z, zs⟩ := pz
      obtain ⟨pre, _, _, _, hq⟩ := findZone_sound s.dir s.time _ zones z zs hfz
      simp [qualifies] at hq
      simp [correlate, hfz] at h
      rcases h with h | h
      · subst h; exact ⟨hq.2, rfl⟩
      · exact ih zs pt h
    | none =>
      simp [correlate, hfz] at h
      exact ih zones pt h

/-- Every verdict in the violations list comes from an answered outcome
whose classification is not correct; unanswered outcomes never contribute. -/
lemma violations_sourced (p : TimingRuleProfile) :
    ∀ (outs : List Outcome) (v : Verdict), v ∈ violations p outs →
      ∃ pt, Outcome.answered pt ∈ outs ∧ classify p pt = v ∧ v ≠ .correct := by
  intro outs
  induction outs with
  | nil => intro v h; simp [violations] at h
  | cons o rest ih =>
    intro v h
    cases o with
    | answered pt =>
      cases hc : classify p pt with
      | correct =>
        rw [violations, hc] at h
        obtain ⟨pt', h1, h2, h3⟩ := ih v h
        exact ⟨pt', List.mem_cons_of_mem _ h1, h2, h3⟩
      | violation k e ex =>
        rw [violations, hc] at h
        rcases List.mem_cons.mp h with h | h
        · exact ⟨pt, List.mem_cons_self _ _, by rw [hc, h], by subst h; simp⟩
        · obtain ⟨pt', h1, h2, h3⟩ := ih v h
          exact ⟨pt', List.mem_cons_of_mem _ h1, h2, h3⟩
    | unanswered s =>
      rw [violations] at h
      obtain ⟨pt', h1, h2, h3⟩ := ih v h
      exact ⟨pt', List.mem_cons_of_mem _ h1, h2, h3⟩

end Odcv

namespace Odcv

/-- C2: the Correlator pairs every sensor transition with the first zone
transition of the matching direction at or after it, found by a single
forward cursor; a sensor transition with no qualifying zone transition
before the next sensor transition of the same direction (or before the
stream ends) is reported Unanswered, never dropped from the outcome list and
never contributing a violation (so never classified Delayed). -/
theorem correlator_pairing (zid : String) (sensors : List SensorT) (zones : List ZoneT) :
    ((correlate zid sensors zones).map outcomeSensor = sensors)
  ∧ (∀ pt, Outcome.answered pt ∈ correlate zid sensors zones →
      pt.sensor_transition_time ≤ pt.zone_transition_time)
  ∧ (∀ (s : SensorT) (rest : List SensorT) (zs : List ZoneT),
      (findZone s.dir s.time (nextSameDir s.dir rest) zs = none →
        correlate zid (s :: rest) zs = .unanswered s :: correlate zid rest zs)
    ∧ (∀ z zs', findZone s.dir s.time (nextSameDir s.dir rest) zs = some (z, zs') →
        correlate zid (s :: rest) zs =
          .answered ⟨zid, s.time, z.time, s.dir, z.time - s.time⟩ :: correlate zid rest zs'
        ∧ z.dir = matchesDir s.dir ∧ s.time ≤ z.time
        ∧ ∃ pre, zs = pre ++ z :: zs' ∧
            ∀ w ∈ pre, withinDeadline (nextSameDir s.dir rest) w.time = true ∧
              qualifies s.dir s.time w = false))
  ∧ (∀ (d : SDir) (t : Nat) (dl : Option Nat) (zs : List ZoneT),
      findZone d t dl zs = none ↔
        ∀ z ∈ zs.takeWhile (fun z => withinDeadline dl z.time), qualifies d t z = false)
  ∧ (∀ (p : TimingRuleProfile) (v : Verdict),
      v ∈ violations p (correlate zid sensors zones) →
      ∃ pt, Outcome.answered pt ∈ correlate zid sensors zones ∧
        classify p pt = v ∧ v ≠ .correct) := by
  refine ⟨correlate_map_outcomeSensor zid sensors zones,
    fun pt h => (correlate_answered_le zid sensors zones pt h).1, ?_, ?_, ?_⟩
  · intro s rest zs
    constructor
    · intro hfz
      simp [correlate, hfz]
    · intro z zs' hfz
      obtain ⟨pre, hsplit, hall, _, hq⟩ := findZone_sound s.dir s.time _ zs z zs' hfz
      simp only [qualifies, Bool.and_eq_true, decide_eq_true_eq] at hq
      exact ⟨by simp [correlate, hfz], hq.1, hq.2, pre, hsplit, hall⟩
  · intro d t dl zs
    exact findZone_none_iff d t dl zs
  · intro p v h
    exact violations_sourced p _ v h

/-- Witness for C2 at a concrete input: in a run with one sensor transition
to unoccupied at 0 answered by standby at 8, the answered pair satisfies the
ordering property, and a run whose zone never answers reports the sensor
transition Unanswered rather than dropping it. -/
theorem correlator_pairing_witness :
    (⟨"Z", 0, 8, SDir.toUnoccupied, 8⟩ : PairedTransition).sensor_transition_time ≤
      (⟨"Z", 0, 8, SDir.toUnoccupied, 8⟩ : PairedTransition).zone_transition_time
  ∧ correlate "Z" [⟨0, .toUnoccupied⟩] [] =
      [.unanswered ⟨0, .toUnoccupied⟩] :=
  ⟨(correlator_pairing "Z" [⟨0, .toUnoccupied⟩] [⟨8, .toStandby⟩]).2.1
      ⟨"Z", 0, 8, .toUnoccupied, 8⟩ (by decide),
   by
    have := ((correlator_pairing "Z" [⟨0, .toUnoccupied⟩] []).2.2.1
      ⟨0, .toUnoccupied⟩ [] []).1 (by decide)
    simpa [correlate] using this⟩

/-- C4: the engine run is deterministic, identical inputs and profile give
identical outcome and violation lists; and when two qualifying zone
transitions share a timestamp the cursor returns the earliest one in raw
load order, so the tie break is reproducible. -/
theorem engine_deterministic (p : TimingRuleProfile) (zid : String)
    (sensors : List SensorT) (zones : List ZoneT) :
    runEngine p zid sensors zones = runEngine p zid sensors zones
  ∧ (∀ (d : SDir) (t : Nat) (dl : Option Nat) (pre mid post : List ZoneT) (z₁ z₂ : ZoneT),
      (∀ w ∈ pre, withinDeadline dl w.time = true ∧ qualifies d t w = false) →
      withinDeadline dl z₁.time = true → qualifies d t z₁ = true →
      z₁.time = z₂.time → qualifies d t z₂ = true →
      findZone d t dl (pre ++ z₁ :: (mid ++ z₂ :: post)) = some (z₁, mid ++ z₂ :: post)) :=
  ⟨rfl, fun d t dl pre mid post z₁ z₂ hpre hw hq _ _ =>
    findZone_first d t dl pre z₁ (mid ++ z₂ :: post) hpre hw hq⟩

/-- Witness for C4 at a concrete input: two standby transitions share
timestamp 5 and the cursor returns the first-loaded one. -/
theorem engine_deterministic_witness :
    findZone SDir.toUnoccupied 0 none [⟨5, ZDir.toStandby⟩, ⟨5, ZDir.toStandby⟩] =
      some (⟨5, ZDir.toStandby⟩, [⟨5, ZDir.toStandby⟩]) :=
  (engine_deterministic defaultProfile "Z" [] []).2 SDir.toUnoccupied 0 none
    [] [] [] ⟨5, ZDir.toStandby⟩ ⟨5, ZDir.toStandby⟩ (by simp) (by decide) (by decide)
    rfl (by decide)

end Odcv

namespace Odcv

/-- A stream whose last reported timestamp precedes the window end produces
a trailing gap out to the window end. -/
lemma scanGaps_trailing (thresh we : Nat) :
    ∀ (es : List Nat) (prev : Nat), es.getLastD prev < we →
      (⟨es.getLastD prev, we, we - es.getLastD prev⟩ : DataGap) ∈ scanGaps thresh we prev es := by
  intro es
  induction es with
  | nil =>
    intro prev h
    simp only [List.getLastD] at h ⊢
    simp [scanGaps, h]
  | cons t ts ih =>
    intro prev h
    rw [List.getLastD_cons] at h ⊢
    simp only [scanGaps, List.mem_append]
    exact Or.inr (ih t h)

set_option maxRecDepth 4000 in
/-- C6: the Data Quality Detector reports a stream with zero events as one
gap spanning the whole window; a stream whose last event precedes the
window end gets a gap extending out to the window boundary; the
completeness percent is one minus total gap duration over window duration,
clamped to the interval from 0 to 1; and a 48 hour outage at the end of a 15
day window (events every hour through hour 312, window ending at hour 360)
is reported as exactly one 48 hour gap. -/
theorem data_quality_detector (ws we thresh : Nat) :
    detectGaps ws we thresh [] = [⟨ws, we, we - ws⟩]
  ∧ (∀ (t : Nat) (ts : List Nat),
      (t :: ts).getLastD 0 < we →
      (⟨(t :: ts).getLastD 0, we, we - (t :: ts).getLastD 0⟩ : DataGap) ∈
        detectGaps ws we thresh (t :: ts))
  ∧ (∀ gaps, 0 ≤ completenessPercent ws we gaps ∧ completenessPercent ws we gaps ≤ 1)
  ∧ (∀ gaps, 0 ≤ 1 - (totalGapDuration gaps : ℚ) / ((we : ℚ) - (ws : ℚ)) →
      1 - (totalGapDuration gaps : ℚ) / ((we : ℚ) - (ws : ℚ)) ≤ 1 →
      completenessPercent ws we gaps =
        1 - (totalGapDuration gaps : ℚ) / ((we : ℚ) - (ws : ℚ)))
  ∧ detectGaps 0 360 5 (List.range 313) = [⟨312, 360, 48⟩] := by
  refine ⟨rfl, ?_, ?_, ?_, by decide⟩
  · intro t ts h
    rw [List.getLastD_cons] at h ⊢
    have := scanGaps_trailing thresh we (t :: ts) ws (by rw [List.getLastD_cons]; exact h)
    rw [List.getLastD_cons] at this
    simpa [detectGaps] using this
  · intro gaps
    refine ⟨le_max_left 0 _, ?_⟩
    exact max_le (by norm_num) (min_le_left _ _)
  · intro gaps h0 h1
    rw [completenessPercent, min_eq_right h1, max_eq_right h0]

/-- Witness for C6 at concrete inputs: a stream ending at 0 inside the
window from 0 to 100 with threshold 5 yields the gap from 0 to 100, and a
single 50 unit gap in a 100 unit window gives completeness one half. -/
theorem data_quality_detector_witness :
    (⟨0, 100, 100⟩ : DataGap) ∈ detectGaps 0 100 5 [0]
  ∧ completenessPercent 0 100 [⟨0, 50, 50⟩] =
      1 - (totalGapDuration [⟨0, 50, 50⟩] : ℚ) / ((100 : ℚ) - (0 : ℚ)) :=
  ⟨(data_quality_detector 0 100 5).2.1 0 [] (by decide),
   (data_quality_detector 0 100 5).2.2.2.1 [⟨0, 50, 50⟩]
     (by norm_num [totalGapDuration]) (by norm_num [totalGapDuration])⟩

/-- C7: requesting a profile name that does not exist fails the
classification run with InvalidProfile, exactly when the name is absent from
the profile table, and no other profile is silently substituted: a
successful run uses exactly the profile looked up under the requested name;
unanswered sensor transitions are surfaced as the distinct unanswered
outcome, never coerced into a compliance verdict. -/
theorem invalid_profile_error (profiles : List (String × TimingRuleProfile)) (name : String)
    (outs : List Outcome) :
    (runClassification profiles name outs = .error (.invalidProfile name) ↔
      lookupProfile profiles name = none)
  ∧ (lookupProfile profiles name = none ↔ ∀ q ∈ profiles, q.1 ≠ name)
  ∧ (∀ res, runClassification profiles name outs = .ok res →
      ∃ p, lookupProfile profiles name = some p ∧ res = classifyAll p outs)
  ∧ (∀ (p : TimingRuleProfile) (s : SensorT), Outcome.unanswered s ∈ outs →
      ClassifiedOutcome.unansweredReport s ∈ classifyAll p outs) := by
  refine ⟨?_, ?_, ?_, ?_⟩
  · cases hl : lookupProfile profiles name with
    | none => simp [runClassification, hl]
    | some p => simp [runClassification, hl]
  · rw [lookupProfile]
    simp [List.find?_eq_none]
  · intro res h
    cases hl : lookupProfile profiles name with
    | none => simp [runClassification, hl] at h
    | some p =>
      simp [runClassification, hl] at h
      exact ⟨p, rfl, h.symm⟩
  · intro p s hmem
    simp only [classifyAll, List.mem_map]
    exact ⟨.unanswered s, hmem, rfl⟩

/-- Witness for C7 at concrete inputs: with the table holding only the
default profile, a successful run under the name default uses exactly that
profile, and an unanswered sensor transition is reported as unanswered. -/
theorem invalid_profile_error_witness :
    (∃ p, lookupProfile [("default", defaultProfile)] "default" = some p ∧
      classifyAll defaultProfile [] = classifyAll p ([] : List Outcome))
  ∧ ClassifiedOutcome.unansweredReport ⟨3, .toOccupied⟩ ∈
      classifyAll defaultProfile [.unanswered ⟨3, .toOccupied⟩] :=
  ⟨(invalid_profile_error [("default", defaultProfile)] "default" []).2.2.1
     (classifyAll defaultProfile []) rfl,
   (invalid_profile_error [("default", defaultProfile)] "default"
       [.unanswered ⟨3, .toOccupied⟩]).2.2.2 defaultProfile ⟨3, .toOccupied⟩ (by decide)⟩

end Odcv

namespace OdcvServer

/-- C8: a POST to the download endpoint whose body is missing fileId or
accessToken is answered 400 with success false and the fixed error message,
without performing any outbound fetch; when the outbound fetch is performed
and fails (response not ok, or the fetch rejects) the endpoint answers 500
with success false and the error message. -/
theorem download_endpoint (req : DownloadRequest) (fetch : String → FetchOutcome) :
    ((req.fileId = none ∨ req.accessToken = none) →
      handleDownload req fetch =
        ⟨400, false, some "Missing required fileId or accessToken", none, false⟩)
  ∧ (∀ (url : String) (st : Nat) (stx : String),
      jsFalsy req.fileId = false → jsFalsy req.accessToken = false →
      downloadUrl ((req.fileId).getD "") req.mimeType = some url →
      fetch url = .httpError st stx →
      handleDownload req fetch =
        ⟨500, false, some ("Google Drive API error: " ++ toString st ++ " " ++ stx),
          none, true⟩)
  ∧ (∀ (url msg : String),
      jsFalsy req.fileId = false → jsFalsy req.accessToken = false →
      downloadUrl ((req.fileId).getD "") req.mimeType = some url →
      fetch url = .rejected msg →
      handleDownload req fetch = ⟨500, false, some msg, none, true⟩) := by
  refine ⟨?_, ?_, ?_⟩
  · rintro (h | h) <;> simp [handleDownload, h, jsFalsy]
  · intro url st stx h1 h2 h3 h4
    simp [handleDownload, h1, h2, h3, h4]
  · intro url msg h1 h2 h3 h4
    simp [handleDownload, h1, h2, h3, h4]

/-- Witness for C8 at concrete inputs: a body without fileId gets the 400
response with no fetch performed, and a fetch answered 403 gets the 500
response carrying the error message. -/
theorem download_endpoint_witness :
    handleDownload ⟨none, some "text/plain", some "tok"⟩ (fun _ => .rejected "boom") =
      ⟨400, false, some "Missing required fileId or accessToken", none, false⟩
  ∧ handleDownload ⟨some "f", some "text/plain", some "tok"⟩
        (fun _ => .httpError 403 "Forbidden") =
      ⟨500, false, some ("Google Drive API error: " ++ toString (403 : Nat) ++ " " ++ "Forbidden"),
        none, true⟩ :=
  ⟨(download_endpoint ⟨none, some "text/plain", some "tok"⟩ (fun _ => .rejected "boom")).1
      (Or.inl rfl),
   (download_endpoint ⟨some "f", some "text/plain", some "tok"⟩
        (fun _ => .httpError 403 "Forbidden")).2.1
      "https://www.googleapis.com/drive/v3/files/f?alt=media" 403 "Forbidden"
      rfl rfl (by decide) rfl⟩

/-- The html extension is a suffix of a path starting with a slash exactly
when it is a suffix of the path with the slash removed. -/
lemma isSuffixOf_html_cons_slash (cs : List Char) :
    htmlExt.isSuffixOf ('/' :: cs) = htmlExt.isSuffixOf cs := by
  rw [Bool.eq_iff_iff, List.isSuffixOf_iff_suffix, List.isSuffixOf_iff_suffix,
    List.suffix_cons_iff]
  constructor
  · rintro (h | h)
    · rw [show htmlExt = ['.', 'h', 't', 'm', 'l'] from rfl] at h
      injection h with h1 _
      exact absurd h1 (by decide)
    · exact h
  · exact fun h => Or.inr h

/-- C9: a GET reaching the catch all route whose path (which starts with a
slash) does not end in .html is answered with the 404 json body; a path
ending in .html whose named file does not exist is answered with the
timeline viewer file instead, so an html request never receives the 404
from this route. -/
theorem catch_all_route (path : List Char) (fileExists : List Char → Bool) :
    (htmlExt.isSuffixOf path = false → path.head? = some '/' →
      catchAll path fileExists = .notFoundJson)
  ∧ (htmlExt.isSuffixOf path = true → path.head? = some '/' →
      fileExists (path.drop 1) = false →
      catchAll path fileExists = .sendFile "timeline_viewer.html".toList)
  ∧ (∀ fe : List Char → Bool, htmlExt.isSuffixOf path = true → path.head? = some '/' →
      catchAll path fe ≠ .notFoundJson) := by
  refine ⟨?_, ?_, ?_⟩
  · intro hfalse hhead
    cases path with
    | nil => simp at hhead
    | cons c cs =>
      simp only [List.head?] at hhead
      injection hhead with hc
      subst hc
      rw [isSuffixOf_html_cons_slash] at hfalse
      simp [catchAll, hfalse]
  · intro htrue hhead hfe
    cases path with
    | nil => simp at hhead
    | cons c cs =>
      simp only [List.head?] at hhead
      injection hhead with hc
      subst hc
      rw [isSuffixOf_html_cons_slash] at htrue
      simp only [List.drop] at hfe
      simp [catchAll, htrue, hfe]
  · intro fe htrue hhead
    cases path with
    | nil => simp at hhead
    | cons c cs =>
      simp only [List.head?] at hhead
      injection hhead with hc
      subst hc
      rw [isSuffixOf_html_cons_slash] at htrue
      by_cases hfe : fe cs = true <;> simp [catchAll, htrue, hfe]

/-- Witness for C9 at concrete inputs: a missing html file is answered with
the timeline viewer, and a non html path gets the 404 json body. -/
theorem catch_all_route_witness :
    catchAll "/missing.html".toList (fun _ => false) =
      .sendFile "timeline_viewer.html".toList
  ∧ catchAll "/api/health".toList (fun _ => false) = .notFoundJson :=
  ⟨(catch_all_route "/missing.html".toList (fun _ => false)).2.1
      (by decide) (by decide) rfl,
   (catch_all_route "/api/health".toList (fun _ => false)).1 (by decide) (by decide)⟩

end OdcvServer

namespace OdcvNav

/-- Counterexample for C10: a hostname starting with file:// is classified
local by the code, although it is none of localhost, 127.0.0.1 and the empty
hostname, so the claimed exact characterisation of the local environment is
false on the code. -/
theorem nav_environment_counterexample :
    detectEnvironment "file://host" = Env.localEnv
  ∧ "file://host" ≠ "localhost" ∧ "file://host" ≠ "127.0.0.1" ∧ "file://host" ≠ "" := by
  refine ⟨by decide, by decide, by decide, by decide⟩

/-- The fallback configuration resolves every project base url to the empty
string, so building a url under it returns the filename unchanged. -/
lemma buildUrl_fallback (hostname p f : String) :
    buildUrl (some fallbackConfig) hostname p f = f := by
  rw [buildUrl]
  cases detectEnvironment hostname with
  | localEnv =>
    by_cases h1 : ("soo_base" : String) = p ++ "_base"
    · simp [envName, fallbackConfig, lookupKey, List.find?, h1]
    · by_cases h2 : ("validation_base" : String) = p ++ "_base" <;>
        simp [envName, fallbackConfig, lookupKey, List.find?, h1, h2]
  | production =>
    by_cases h1 : ("soo_base" : String) = p ++ "_base"
    · simp [envName, fallbackConfig, lookupKey, List.find?, h1]
    · by_cases h2 : ("validation_base" : String) = p ++ "_base" <;>
        simp [envName, fallbackConfig, lookupKey, List.find?, h1, h2]

/-- C10 (amended): every navigation item always receives a defined href,
and after a failed fetch of nav-urls.json the fallback configuration makes
every href the bare filename; buildUrl returns the filename unchanged
whenever the base url of the project is absent; and the environment is
local exactly when the hostname is localhost, 127.0.0.1, empty, or starts
with file:// (the file:// case being what the original claim omitted). -/
theorem nav_href_defined (fetched : Option UrlConfig) (hostname : String) :
    ((buildNavigationConfig fetched hostname).map (fun r => r.item) = navTemplateItems)
  ∧ (∀ r ∈ buildNavigationConfig none hostname, r.href = r.item.filename)
  ∧ (∀ (c : UrlConfig) (p f : String) (envCfg : List (String × String)),
      lookupKey c.environments (envName (detectEnvironment hostname)) = some envCfg →
      lookupKey envCfg (p ++ "_base") = none →
      buildUrl (some c) hostname p f = f)
  ∧ (detectEnvironment hostname = Env.localEnv ↔
      (hostname = "localhost" ∨ hostname = "127.0.0.1" ∨ hostname = "" ∨
        strStartsWith hostname "file://" = true)) := by
  refine ⟨?_, ?_, ?_, ?_⟩
  · simp only [buildNavigationConfig, List.map_map]
    exact List.map_id navTemplateItems
  · intro r hr
    simp only [buildNavigationConfig, List.mem_map] at hr
    obtain ⟨item, _, rfl⟩ := hr
    cases hp : item.project with
    | none => simp [hp]
    | some p => simp [hp, loadUrlConfig, buildUrl_fallback]
  · intro c p f envCfg h1 h2
    simp [buildUrl, h1, h2]
  · rw [detectEnvironment]
    split_ifs with hc
    · simp [hc]
    · simp [hc]

/-- Witness for C10 at concrete inputs: after a failed config fetch on a
production hostname the generator item href is its bare filename, and a
configuration whose production environment lists no base urls leaves a
filename unchanged. -/
theorem nav_href_defined_witness :
    (⟨⟨"generator", "Create Draft", some "soo", "index.html", "soo", true⟩,
        "index.html"⟩ : ResolvedItem).href =
      (⟨⟨"generator", "Create Draft", some "soo", "index.html", "soo", true⟩,
        "index.html"⟩ : ResolvedItem).item.filename
  ∧ buildUrl (some ⟨[("production", [])]⟩) "example.com" "zoo" "x.html" = "x.html" :=
  ⟨(nav_href_defined none "example.com").2.1
      ⟨⟨"generator", "Create Draft", some "soo", "index.html", "soo", true⟩, "index.html"⟩
      (by decide),
   (nav_href_defined none "example.com").2.2.1 ⟨[("production", [])]⟩ "zoo" "x.html" []
      (by decide) (by decide)⟩

end OdcvNav
